import Mathlib

/-!
Shallow embedding of the study-app session lifecycle and violation-scoring
engine (services/firebase module and the ActiveSessionScreen end-session
decision), together with proofs of the specified properties.

Firestore documents are modelled as Lean structures; the remote store is a
list of documents; `serverTimestamp()` is modelled as an explicit `now`
parameter; `Math.random()` draws are modelled as an explicit stream of
natural-number draws.
-/

namespace StudyApp

/-- Violation severity categories (source: `ViolationCategory`). -/
inductive ViolationCategory where
  | minor
  | medium
  | large
  | catastrophic
deriving DecidableEq, Repr

/-- Session status (source: `Session.status`). -/
inductive SessionStatus where
  | pending
  | active
  | ended
deriving DecidableEq, Repr

/-- Session outcome (source: `SessionOutcome`). -/
inductive SessionOutcome where
  | successful
  | failed
deriving DecidableEq, Repr

/-- A violation during a study session (source: `Violation`).
`durationSeconds` is a non-negative integer, modelled as `Nat`. -/
structure Violation where
  userId : String
  timestamp : String
  kind : String
  durationSeconds : Nat
  category : ViolationCategory
deriving DecidableEq, Repr

/-- A study session document (source: `Session`).  Timestamps (`Date | null`)
are modelled as `Option Nat`; the optional `outcome`, `failReason` and
`statsUpdatedFor` fields are modelled as `Option`/`List` with the source's
defaults (`null`, `null`, `[]`). -/
structure Session where
  id : String
  hostId : String
  participants : List String
  status : SessionStatus
  duration : Nat
  isMarathon : Bool
  violations : List Violation
  createdAt : Option Nat
  startTime : Option Nat
  endTime : Option Nat
  roomCode : String
  outcome : Option SessionOutcome
  failReason : Option String
  statsUpdatedFor : List String
deriving DecidableEq, Repr

/-- A user profile document (source: `UserProfile`).  `totalHours` is a
JS number incremented by exact sixtieths, modelled as `ℚ`. -/
structure UserProfile where
  id : String
  username : String
  email : String
  totalHours : ℚ
  violations : Nat
  sessionsCompleted : Nat
  createdAt : Nat
deriving DecidableEq, Repr

/-- Categorizes a violation based on duration (source: `getViolationCategory`). -/
def getViolationCategory (durationSeconds : Nat) : ViolationCategory :=
  if durationSeconds < 30 then .minor
  else if durationSeconds < 120 then .medium
  else if durationSeconds < 300 then .large
  else .catastrophic

/-- Total violation time for a user in a session (source:
`getUserTotalViolationTime`): filter by `userId`, then reduce with `+`
starting from `0`. -/
def getUserTotalViolationTime (violations : List Violation) (userId : String) : Nat :=
  (violations.filter (fun v => v.userId == userId)).foldl
    (fun total v => total + v.durationSeconds) 0

/-- The 5-minute ceiling used by `isSessionSuccessful` (source:
`MAX_VIOLATION_SECONDS`). -/
def MAX_VIOLATION_SECONDS : Nat := 300

/-- Whether a session is successful based on violations (source:
`isSessionSuccessful`): loop over participants, return `false` as soon as
one has total violation time `≥ MAX_VIOLATION_SECONDS`, else `true`. -/
def isSessionSuccessful (violations : List Violation) : List String → Bool
  | [] => true
  | participantId :: rest =>
    if MAX_VIOLATION_SECONDS ≤ getUserTotalViolationTime violations participantId then
      false
    else
      isSessionSuccessful violations rest

/-- Outcome decision of `handleEndSession` in `ActiveSessionScreen` when the
host confirms ending the session voluntarily: the pair written by the
`endSession` call it makes, as `(outcome, failReason)`.  `timer` is the
elapsed time in seconds; `targetSeconds` is `duration * 60`. -/
def handleEndSessionOutcome (isMarathon : Bool) (duration : Nat) (timer : Nat)
    (violations : List Violation) (participants : List String) :
    SessionOutcome × Option String :=
  let targetSeconds := duration * 60
  let isCompletedDuration := isMarathon || decide (targetSeconds ≤ timer)
  let hasLowViolations := isSessionSuccessful violations participants
  if isMarathon then (.successful, none)
  else if isCompletedDuration && hasLowViolations then (.successful, none)
  else if !isCompletedDuration then (.failed, some "Session ended early")
  else (.failed, some "Total violations exceeded 5 minute limit")

/-- Starts a session (source: `startSession`): writes `status: "active"` and a
server-assigned `startTime` unconditionally — the source performs no status
check before the update.  `now` models `serverTimestamp()`. -/
def startSession (now : Nat) (s : Session) : Session :=
  { s with status := .active, startTime := some now }

/-- Ends a session (source: `endSession`): writes `status: "ended"`,
`endTime`, `outcome` and `failReason` unconditionally — the source performs
no status check before the update. -/
def endSession (now : Nat) (s : Session)
    (outcome : SessionOutcome := .successful) (failReason : Option String := none) :
    Session :=
  { s with status := .ended, endTime := some now, outcome := some outcome,
           failReason := failReason }

/-- Terminates a session for a catastrophic violation (source:
`terminateSession`): same unconditional write with a failed outcome. -/
def terminateSession (now : Nat) (s : Session) (reason : String) : Session :=
  { s with status := .ended, endTime := some now, outcome := some .failed,
           failReason := some reason }

/-- Cancels a session (source: `cancelSession`): `deleteDoc` on the session
document, unconditionally — the source performs no status check. -/
def cancelSession (store : List Session) (sessionId : String) : List Session :=
  store.filter (fun s => !(s.id == sessionId))

/-- A concrete session that has already ended, used to exercise the
lifecycle operations outside their intended states. -/
def endedSessionEx : Session :=
  { id := "s1", hostId := "h", participants := ["h"], status := .ended,
    duration := 25, isMarathon := false, violations := [], createdAt := some 0,
    startTime := some 1, endTime := some 2, roomCode := "123456",
    outcome := some .failed, failReason := some "Session ended early",
    statsUpdatedFor := [] }

/-- The distinguishable failure kinds of `joinSessionByCode` (source: the
three distinct error messages thrown). -/
inductive JoinError where
  | notFound
  | alreadyStarted
  | ended
deriving DecidableEq, Repr

/-- Finds a session by room code (source: `getSessionByRoomCode`): queries
sessions with the given `roomCode` whose status is in
`["pending", "active"]` and returns the first match, or `null`. -/
def getSessionByRoomCode (store : List Session) (roomCode : String) : Option Session :=
  store.find? (fun s =>
    s.roomCode == roomCode && (s.status == .pending || s.status == .active))

/-- Firestore `arrayUnion` on a string array: appends the element only when
it is not already present. -/
def arrayUnion (xs : List String) (x : String) : List String :=
  if x ∈ xs then xs else xs ++ [x]

/-- `updateDoc` on the session with the given id, applying a field
transformation to the stored document. -/
def updateSessionDoc (store : List Session) (sessionId : String)
    (f : Session → Session) : List Session :=
  store.map (fun s => if s.id == sessionId then f s else s)

/-- Adds a user to a session by room code (source: `joinSessionByCode`):
looks the code up via `getSessionByRoomCode`; errors when absent, already
started, or ended; returns the existing session id without mutation when the
user is already a participant; otherwise `arrayUnion`s the user into the
participants.  Returns the session id together with the resulting store. -/
def joinSessionByCode (store : List Session) (roomCode : String) (userId : String) :
    Except JoinError (String × List Session) :=
  match getSessionByRoomCode store roomCode with
  | none => .error .notFound
  | some session =>
    if session.status == .active then .error .alreadyStarted
    else if session.status == .ended then .error .ended
    else if userId ∈ session.participants then .ok (session.id, store)
    else
      .ok (session.id,
        updateSessionDoc store session.id
          (fun s => { s with participants := arrayUnion s.participants userId }))

/-- A concrete ended session holding room code "123456", used to show what
joining an ended session's code reports. -/
def endedRoomSessionEx : Session :=
  { id := "s9", hostId := "h", participants := ["h"], status := .ended,
    duration := 25, isMarathon := false, violations := [], createdAt := some 0,
    startTime := some 1, endTime := some 2, roomCode := "123456",
    outcome := some .successful, failReason := none, statsUpdatedFor := [] }

/-- A concrete pending session holding room code "111111". -/
def pendingRoomSessionEx : Session :=
  { id := "s3", hostId := "h", participants := ["h"], status := .pending,
    duration := 25, isMarathon := false, violations := [], createdAt := some 0,
    startTime := none, endTime := none, roomCode := "111111",
    outcome := none, failReason := none, statsUpdatedFor := [] }

/-- Failure of the room code generator (source: the error thrown after
maximum retries). -/
inductive RoomCodeError where
  | exhaustedRetries
deriving DecidableEq, Repr

/-- The numeric code produced from one random draw (source:
`Math.floor(100000 + Math.random() * 900000)`): with `r = Math.random()` in
`[0, 1)`, this is `100000 + draw` where `draw = Math.floor(r * 900000)`
ranges over `0 .. 899999`. -/
def roomCodeNat (draw : Nat) : Nat := 100000 + draw

/-- Whether some session currently `pending` or `active` holds the given
room code (source: the collision query in `generateRoomCode`). -/
def hasRoomCodeCollision (store : List Session) (code : String) : Bool :=
  store.any (fun s =>
    s.roomCode == code && (s.status == .pending || s.status == .active))

/-- Generates a unique 6-digit room code (source: `generateRoomCode`):
errors once `attempt` reaches `maxRetries`; otherwise draws a code, retries
recursively on collision with a pending/active session, and returns the
code otherwise.  `draws` models the stream of `Math.random()` draws, one
per attempt. -/
def generateRoomCode (store : List Session) (draws : Nat → Nat)
    (maxRetries : Nat := 10) (attempt : Nat := 0) : Except RoomCodeError String :=
  if maxRetries ≤ attempt then .error .exhaustedRetries
  else
    if hasRoomCodeCollision store (toString (roomCodeNat (draws attempt))) then
      generateRoomCode store draws maxRetries (attempt + 1)
    else
      .ok (toString (roomCodeNat (draws attempt)))
termination_by maxRetries - attempt
decreasing_by omega

/-- A store in which the pending session holds room code "100000". -/
def reservedRoomSessionEx : Session :=
  { id := "s5", hostId := "h", participants := ["h"], status := .pending,
    duration := 25, isMarathon := false, violations := [], createdAt := some 0,
    startTime := none, endTime := none, roomCode := "100000",
    outcome := none, failReason := none, statsUpdatedFor := [] }

/-- The remote store: the sessions collection and the users collection. -/
structure FirestoreState where
  sessions : List Session
  users : List UserProfile
deriving DecidableEq, Repr

/-- `getDoc` on the sessions collection by document id. -/
def findSessionDoc (sessions : List Session) (sessionId : String) : Option Session :=
  sessions.find? (fun s => s.id == sessionId)

/-- `getDoc` on the users collection by document id. -/
def findUserDoc (users : List UserProfile) (userId : String) : Option UserProfile :=
  users.find? (fun u => u.id == userId)

/-- `updateDoc` on the user with the given id, writing the given document
(the source writes absolute field values computed from the fetched doc). -/
def setUserDoc (users : List UserProfile) (userId : String)
    (newDoc : UserProfile) : List UserProfile :=
  users.map (fun u => if u.id == userId then newDoc else u)

/-- Updates a user's statistics after a session ends (source:
`updateUserStats`): fetches the session doc and returns the store unchanged
when it is missing or when `userId` is already in its `statsUpdatedFor`;
fetches the user doc (no-op when missing); on a successful outcome adds
`duration / 60` hours, the user's total violation seconds and one completed
session, on any other outcome only the violation seconds; finally
`arrayUnion`s `userId` into the session's `statsUpdatedFor`. -/
def updateUserStats (userId : String) (sessionData : Session)
    (st : FirestoreState) : FirestoreState :=
  match findSessionDoc st.sessions sessionData.id with
  | none => st
  | some currentSessionData =>
    if userId ∈ currentSessionData.statsUpdatedFor then st
    else
      match findUserDoc st.users userId with
      | none => st
      | some currentData =>
        let userViolationDuration :=
          getUserTotalViolationTime sessionData.violations userId
        let newUserDoc :=
          if sessionData.outcome = some .successful then
            { currentData with
                totalHours := currentData.totalHours + (sessionData.duration : ℚ) / 60,
                violations := currentData.violations + userViolationDuration,
                sessionsCompleted := currentData.sessionsCompleted + 1 }
          else
            { currentData with
                violations := currentData.violations + userViolationDuration }
        { sessions := updateSessionDoc st.sessions sessionData.id
            (fun s => { s with statsUpdatedFor := arrayUnion s.statsUpdatedFor userId }),
          users := setUserDoc st.users userId newUserDoc }

/-- The session document written by `createSession` (source: `createSession`):
participants are the host followed by the invited ids, status `pending`,
duration forced to `0` for a marathon, no violations, the generated room
code; the store assigns `id` and `createdAt`. -/
def createSessionDoc (hostId : String) (participantIds : List String)
    (duration : Nat) (isMarathon : Bool) (roomCode : String)
    (id : String) (createdAt : Nat) : Session :=
  { id := id, hostId := hostId,
    participants := hostId :: participantIds,
    status := .pending,
    duration := if isMarathon then 0 else duration,
    isMarathon := isMarathon,
    violations := [],
    createdAt := some createdAt,
    startTime := none, endTime := none,
    roomCode := roomCode,
    outcome := none, failReason := none, statsUpdatedFor := [] }

/-- A concrete ended successful session used to exercise reconciliation. -/
def finishedSessionEx : Session :=
  { id := "s7", hostId := "h", participants := ["h", "u1"], status := .ended,
    duration := 30, isMarathon := false,
    violations := [⟨"u1", "t1", "app-switch", 10, .minor⟩],
    createdAt := some 0, startTime := some 1, endTime := some 2,
    roomCode := "222222", outcome := some .successful, failReason := none,
    statsUpdatedFor := [] }

/-- The finished session after reconciliation has run for "u1". -/
def reconciledSessionEx : Session :=
  { finishedSessionEx with statsUpdatedFor := ["u1"] }

/-- A concrete ended successful marathon session (duration 0). -/
def marathonSessionEx : Session :=
  { id := "s8", hostId := "h", participants := ["h", "u1"], status := .ended,
    duration := 0, isMarathon := true,
    violations := [⟨"u1", "t1", "app-switch", 10, .minor⟩],
    createdAt := some 0, startTime := some 1, endTime := some 2,
    roomCode := "333333", outcome := some .successful, failReason := none,
    statsUpdatedFor := [] }

/-- A concrete user profile document. -/
def userProfileEx : UserProfile :=
  { id := "u1", username := "user one", email := "u1@example.com",
    totalHours := 1, violations := 5, sessionsCompleted := 2, createdAt := 0 }

/-- A store holding the finished session and the profile. -/
def statsStoreEx : FirestoreState :=
  { sessions := [finishedSessionEx], users := [userProfileEx] }

lemma isSessionSuccessful_iff (violations : List Violation) (participants : List String) :
    isSessionSuccessful violations participants = true ↔
      ∀ u ∈ participants, getUserTotalViolationTime violations u < 300 := by
  induction participants with
  | nil => simp [isSessionSuccessful]
  | cons p rest ih =>
    simp only [isSessionSuccessful, MAX_VIOLATION_SECONDS]
    by_cases h : 300 ≤ getUserTotalViolationTime violations p
    · simp only [if_pos h, Bool.false_eq_true, false_iff]
      intro hall
      exact absurd (hall p (by simp)) (by omega)
    · simp only [if_neg h, ih, List.mem_cons]
      constructor
      · rintro hall u (rfl | hu)
        · omega
        · exact hall u hu
      · intro hall u hu
        exact hall u (Or.inr hu)

/-- C1: `isSessionSuccessful(violations, participants)` is `true` iff every
participant's per-user sum of `durationSeconds` is strictly below 300;
it is `true` on an empty participant list and on an empty violation list,
and `false` as soon as some participant's total is exactly 300 seconds. -/
theorem isSessionSuccessful_spec (violations : List Violation) (participants : List String) :
    (isSessionSuccessful violations participants = true ↔
      ∀ u ∈ participants, getUserTotalViolationTime violations u < 300) ∧
    isSessionSuccessful violations [] = true ∧
    isSessionSuccessful [] participants = true ∧
    (∀ u ∈ participants, getUserTotalViolationTime violations u = 300 →
      isSessionSuccessful violations participants = false) := by
  refine ⟨isSessionSuccessful_iff violations participants, rfl, ?_, ?_⟩
  · exact (isSessionSuccessful_iff [] participants).mpr
      (fun u _ => by simp [getUserTotalViolationTime])
  · intro u hu htotal
    by_contra hne
    have htrue : isSessionSuccessful violations participants = true := by
      cases hval : isSessionSuccessful violations participants with
      | false => exact absurd hval hne
      | true => rfl
    have := (isSessionSuccessful_iff violations participants).mp htrue u hu
    omega

/-- Witness for C1: a single user with two 150-second violations (neither
catastrophic) totals exactly 300 seconds, and the session is not successful. -/
theorem isSessionSuccessful_spec_witness :
    isSessionSuccessful
      [⟨"a", "t1", "app-switch", 150, .large⟩, ⟨"a", "t2", "app-switch", 150, .large⟩]
      ["a"] = false :=
  (isSessionSuccessful_spec
      [⟨"a", "t1", "app-switch", 150, .large⟩, ⟨"a", "t2", "app-switch", 150, .large⟩]
      ["a"]).2.2.2 "a" (by simp) (by decide)

/-- C2: the violation classifier is total on `Nat` and maps durations to the
four categories with half-open thresholds at 30, 120 and 300 seconds. -/
theorem getViolationCategory_spec (d : Nat) :
    (getViolationCategory d = .minor ↔ d < 30) ∧
    (getViolationCategory d = .medium ↔ 30 ≤ d ∧ d < 120) ∧
    (getViolationCategory d = .large ↔ 120 ≤ d ∧ d < 300) ∧
    (getViolationCategory d = .catastrophic ↔ 300 ≤ d) ∧
    getViolationCategory 29 = .minor ∧
    getViolationCategory 30 = .medium ∧
    getViolationCategory 119 = .medium ∧
    getViolationCategory 120 = .large ∧
    getViolationCategory 299 = .large ∧
    getViolationCategory 300 = .catastrophic := by
  refine ⟨?_, ?_, ?_, ?_, by decide, by decide, by decide, by decide, by decide, by decide⟩ <;>
    · unfold getViolationCategory
      split_ifs <;> simp <;> omega

/-- C3: ending a session voluntarily: a marathon session always ends
`successful`; a non-marathon session ended before `duration * 60` elapsed
seconds ends `failed` with reason "Session ended early" regardless of
violations; a non-marathon session at or past its target duration ends
`successful` exactly when `isSessionSuccessful` holds, else `failed` with
reason "Total violations exceeded 5 minute limit". -/
theorem handleEndSessionOutcome_spec (duration timer : Nat)
    (violations : List Violation) (participants : List String) :
    (∀ d t, handleEndSessionOutcome true d t violations participants
        = (.successful, none)) ∧
    (timer < duration * 60 →
      handleEndSessionOutcome false duration timer violations participants
        = (.failed, some "Session ended early")) ∧
    (duration * 60 ≤ timer →
      handleEndSessionOutcome false duration timer violations participants
        = if isSessionSuccessful violations participants then (.successful, none)
          else (.failed, some "Total violations exceeded 5 minute limit")) := by
  refine ⟨fun d t => rfl, ?_, ?_⟩
  · intro h
    simp [handleEndSessionOutcome, Nat.not_le.mpr h]
  · intro h
    cases hlow : isSessionSuccessful violations participants <;>
      simp [handleEndSessionOutcome, h, hlow]

/-- Witness for C3: ending a 1-minute non-marathon session at 0 elapsed
seconds marks it failed with reason "Session ended early". -/
theorem handleEndSessionOutcome_spec_witness :
    handleEndSessionOutcome false 1 0 [] []
      = (.failed, some "Session ended early") :=
  (handleEndSessionOutcome_spec 1 0 [] []).2.1 (by decide)

/-- C4 counterexample: the lifecycle operations do not reject sessions in the
wrong state.  `startSession` applied to an already-ended session performs the
transition (status becomes `active`) instead of reporting an error and
leaving the session unchanged; `endSession` applied to a pending session
marks it ended; `cancelSession` applied to an active session deletes it. -/
theorem lifecycle_guard_counterexample :
    (startSession 10 endedSessionEx).status = .active ∧
    startSession 10 endedSessionEx ≠ endedSessionEx ∧
    (endSession 10 { endedSessionEx with status := .pending }).status = .ended ∧
    cancelSession [{ endedSessionEx with status := .active }] "s1" = [] := by
  decide

/-- C4 amended: `startSession`, `endSession`, `terminateSession` and
`cancelSession` perform their writes unconditionally, with no status check:
`start` sets status `active` and stamps `startTime` whatever the prior
status; `end`/`terminate` set status `ended` with the given outcome whatever
the prior status (`terminate` coincides with `end` at a failed outcome); and
`cancel` deletes the session document whatever its status.  Wrong-state
rejection exists only in callers (the UI latch), not in these operations. -/
theorem lifecycle_no_guards (now : Nat) (s : Session) (outcome : SessionOutcome)
    (failReason : Option String) (reason : String)
    (store : List Session) (sessionId : String) :
    (startSession now s).status = .active ∧
    (startSession now s).startTime = some now ∧
    (endSession now s outcome failReason).status = .ended ∧
    (endSession now s outcome failReason).outcome = some outcome ∧
    (endSession now s outcome failReason).failReason = failReason ∧
    terminateSession now s reason = endSession now s .failed (some reason) ∧
    (∀ t ∈ cancelSession store sessionId, t.id ≠ sessionId) := by
  refine ⟨rfl, rfl, rfl, rfl, rfl, rfl, ?_⟩
  intro t ht
  have := List.of_mem_filter ht
  simpa using this

/-- Witness for C4 amended: a session surviving a cancel of a different id
does not carry the cancelled id. -/
theorem lifecycle_no_guards_witness : endedSessionEx.id ≠ "s2" :=
  (lifecycle_no_guards 10 endedSessionEx .successful none "r"
      [endedSessionEx] "s2").2.2.2.2.2.2 endedSessionEx (by decide)

lemma find?_map_invariant {α : Type} (p : α → Bool) (g : α → α)
    (h : ∀ a, p (g a) = p a) (l : List α) :
    (l.map g).find? p = (l.find? p).map g := by
  rw [List.find?_map]
  have hpg : (p ∘ g) = p := funext h
  rw [hpg]

lemma mem_arrayUnion_self (xs : List String) (x : String) : x ∈ arrayUnion xs x := by
  unfold arrayUnion
  split_ifs with h
  · exact h
  · simp

lemma getSessionByRoomCode_update (store : List Session) (sessionId roomCode : String)
    (f : Session → Session)
    (hcode : ∀ s, (f s).roomCode = s.roomCode)
    (hstatus : ∀ s, (f s).status = s.status) :
    getSessionByRoomCode (updateSessionDoc store sessionId f) roomCode =
      (getSessionByRoomCode store roomCode).map
        (fun s => if s.id == sessionId then f s else s) := by
  unfold getSessionByRoomCode updateSessionDoc
  exact find?_map_invariant _ _
    (fun s => by
      by_cases h : (s.id == sessionId) = true <;> simp [h, hcode, hstatus]) store

/-- C5 counterexample: joining the room code of a session whose status is
`ended` reports `notFound`, not the `Ended` error — the lookup filters to
pending/active sessions, so the `Ended` branch never fires. -/
theorem joinSessionByCode_counterexample :
    joinSessionByCode [endedRoomSessionEx] "123456" "u1" = .error .notFound ∧
    JoinError.notFound ≠ JoinError.ended :=
  ⟨rfl, by decide⟩

/-- C5 amended: `joinSessionByCode(roomCode, userId)` fails with `notFound`
when no pending/active session has that code — including when the only
session with that code has status `ended`, since the lookup filters to
pending/active sessions and the `Ended` branch is unreachable; it fails with
`alreadyStarted` when the found session is `active`; it returns the existing
session id without mutation when `userId` is already a participant; and it
otherwise appends `userId` to the participants — so a second call with the
same userId and roomCode returns the same session id and leaves the store
unchanged. -/
theorem joinSessionByCode_spec (store : List Session) (roomCode userId : String) :
    (getSessionByRoomCode store roomCode = none →
      joinSessionByCode store roomCode userId = .error .notFound) ∧
    ((∀ s ∈ store, s.roomCode = roomCode → s.status = .ended) →
      joinSessionByCode store roomCode userId = .error .notFound) ∧
    (∀ s, getSessionByRoomCode store roomCode = some s →
      ((s.status = .active →
          joinSessionByCode store roomCode userId = .error .alreadyStarted) ∧
       (s.status = .pending → userId ∈ s.participants →
          joinSessionByCode store roomCode userId = .ok (s.id, store)) ∧
       (s.status = .pending → userId ∉ s.participants →
          joinSessionByCode store roomCode userId =
            .ok (s.id, updateSessionDoc store s.id
              (fun t => { t with participants := arrayUnion t.participants userId }))))) ∧
    (∀ sessionId store1,
      joinSessionByCode store roomCode userId = .ok (sessionId, store1) →
      joinSessionByCode store1 roomCode userId = .ok (sessionId, store1)) := by
  refine ⟨?_, ?_, ?_, ?_⟩
  · intro h
    simp [joinSessionByCode, h]
  · intro hall
    have hnone : getSessionByRoomCode store roomCode = none := by
      cases hfind : getSessionByRoomCode store roomCode with
      | none => rfl
      | some s =>
        have hp := List.find?_some hfind
        have hmem := List.mem_of_find?_eq_some hfind
        simp only [Bool.and_eq_true, Bool.or_eq_true, beq_iff_eq] at hp
        have hended := hall s hmem hp.1
        rcases hp.2 with h2 | h2 <;> rw [hended] at h2 <;> exact absurd h2 (by decide)
    simp [joinSessionByCode, hnone]
  · intro s hs
    refine ⟨?_, ?_, ?_⟩
    · intro hstat
      simp [joinSessionByCode, hs, hstat]
    · intro hstat hmem
      simp [joinSessionByCode, hs, hstat, hmem]
    · intro hstat hmem
      simp [joinSessionByCode, hs, hstat, hmem]
  · intro sessionId store1 hok
    cases hfind : getSessionByRoomCode store roomCode with
    | none => simp [joinSessionByCode, hfind] at hok
    | some s =>
      have hp := List.find?_some hfind
      simp only [Bool.and_eq_true, Bool.or_eq_true, beq_iff_eq] at hp
      rcases hp.2 with hstat | hstat
      · by_cases hmem : userId ∈ s.participants
        · simp [joinSessionByCode, hfind, hstat, hmem] at hok
          obtain ⟨h1, h2⟩ := hok
          subst h1
          subst h2
          simp [joinSessionByCode, hfind, hstat, hmem]
        · simp [joinSessionByCode, hfind, hstat, hmem] at hok
          obtain ⟨h1, h2⟩ := hok
          subst h1
          subst h2
          have hupd := getSessionByRoomCode_update store s.id roomCode
            (fun t => { t with participants := arrayUnion t.participants userId })
            (fun t => rfl) (fun t => rfl)
          rw [hfind] at hupd
          simp [joinSessionByCode, hupd, hstat,
            mem_arrayUnion_self s.participants userId]
      · simp [joinSessionByCode, hfind, hstat] at hok

/-- Witness for C5: joining a pending session's code as a new user returns
the session id and appends the user. -/
theorem joinSessionByCode_spec_witness :
    joinSessionByCode [pendingRoomSessionEx] "111111" "u1" =
      .ok (pendingRoomSessionEx.id,
        updateSessionDoc [pendingRoomSessionEx] pendingRoomSessionEx.id
          (fun t => { t with participants := arrayUnion t.participants "u1" })) :=
  (((joinSessionByCode_spec [pendingRoomSessionEx] "111111" "u1").2.2.1
      pendingRoomSessionEx (by decide)).2.2) (by decide) (by decide)

lemma generateRoomCode_ok_no_collision (store : List Session) (draws : Nat → Nat) :
    ∀ k maxRetries attempt, maxRetries - attempt ≤ k →
      ∀ c, generateRoomCode store draws maxRetries attempt = .ok c →
        hasRoomCodeCollision store c = false := by
  intro k
  induction k with
  | zero =>
    intro m a hk c hok
    rw [generateRoomCode] at hok
    split_ifs at hok with h1 h2
    · omega
    · omega
  | succ k ih =>
    intro m a hk c hok
    rw [generateRoomCode] at hok
    split_ifs at hok with h1 h2
    · exact ih m (a + 1) (by omega) c hok
    · rw [Except.ok.injEq] at hok
      rw [← hok]
      simpa using h2

lemma generateRoomCode_all_reserved (store : List Session) (draws : Nat → Nat)
    (hall : ∀ i, hasRoomCodeCollision store (toString (roomCodeNat (draws i))) = true) :
    ∀ k maxRetries attempt, maxRetries - attempt ≤ k →
      generateRoomCode store draws maxRetries attempt = .error .exhaustedRetries := by
  intro k
  induction k with
  | zero =>
    intro m a hk
    rw [generateRoomCode]
    rw [if_pos (show m ≤ a by omega)]
  | succ k ih =>
    intro m a hk
    rw [generateRoomCode]
    by_cases hma : m ≤ a
    · rw [if_pos hma]
    · rw [if_neg hma, if_pos (hall a)]
      exact ih m (a + 1) (by omega)

/-- C6 counterexample: no random draw can produce a code below 100000 — the
generator's draw space is `100000 + Math.floor(r * 900000)`, so codes with a
leading zero are not possible return values, contrary to the claim. -/
theorem roomCode_leading_zero_counterexample :
    ¬ ∃ draw, draw < 900000 ∧ roomCodeNat draw < 100000 := by
  rintro ⟨d, -, h⟩
  unfold roomCodeNat at h
  omega

/-- C6 amended: every code produced by a random draw lies in
`100000 .. 999999` (a 6-digit code with a nonzero leading digit), the map
from draws to codes is injective on the draw space (each code arises from
exactly one draw), and codes below 100000 are never produced. -/
theorem roomCodeNat_range (draw : Nat) (h : draw < 900000) :
    100000 ≤ roomCodeNat draw ∧ roomCodeNat draw ≤ 999999 ∧
    (∀ d2, d2 < 900000 → roomCodeNat d2 = roomCodeNat draw → d2 = draw) := by
  unfold roomCodeNat
  exact ⟨by omega, by omega, fun d2 _ he => by omega⟩

/-- Witness for C6 amended: the draw 0 yields the code 100000. -/
theorem roomCodeNat_range_witness :
    100000 ≤ roomCodeNat 0 ∧ roomCodeNat 0 ≤ 999999 ∧
    (∀ d2, d2 < 900000 → roomCodeNat d2 = roomCodeNat 0 → d2 = 0) :=
  roomCodeNat_range 0 (by decide)

/-- C7: `generateRoomCode` never returns a code held by a pending/active
session; with every drawn code colliding it errors with `exhaustedRetries`
after the retry budget; in particular when every code in the whole space
`100000 .. 999999` is reserved by a pending/active session it always errors
rather than recursing forever. -/
theorem generateRoomCode_spec (store : List Session) (draws : Nat → Nat)
    (maxRetries attempt : Nat) :
    (∀ c, generateRoomCode store draws maxRetries attempt = .ok c →
        hasRoomCodeCollision store c = false) ∧
    ((∀ i, hasRoomCodeCollision store (toString (roomCodeNat (draws i))) = true) →
      generateRoomCode store draws maxRetries attempt = .error .exhaustedRetries) ∧
    ((∀ code, 100000 ≤ code → code ≤ 999999 →
        hasRoomCodeCollision store (toString code) = true) →
      (∀ i, draws i < 900000) →
      generateRoomCode store draws maxRetries attempt = .error .exhaustedRetries) := by
  refine ⟨?_, ?_, ?_⟩
  · exact fun c =>
      generateRoomCode_ok_no_collision store draws (maxRetries - attempt)
        maxRetries attempt le_rfl c
  · exact fun hall =>
      generateRoomCode_all_reserved store draws hall (maxRetries - attempt)
        maxRetries attempt le_rfl
  · intro hall hdraws
    refine generateRoomCode_all_reserved store draws
      (fun i => hall (roomCodeNat (draws i)) ?_ ?_) (maxRetries - attempt)
      maxRetries attempt le_rfl
    · unfold roomCodeNat; omega
    · have := hdraws i
      unfold roomCodeNat
      omega

/-- Witness for C7: with the single code "100000" reserved by a pending
session and every draw producing that code, generation exhausts its retry
budget. -/
theorem generateRoomCode_spec_witness :
    generateRoomCode [reservedRoomSessionEx] (fun _ => 0) 10 0
      = .error .exhaustedRetries :=
  (generateRoomCode_spec [reservedRoomSessionEx] (fun _ => 0) 10 0).2.1
    (fun _ => rfl)

lemma arrayUnion_not_mem (xs : List String) (x : String) (h : x ∉ xs) :
    arrayUnion xs x = xs ++ [x] := by
  unfold arrayUnion
  rw [if_neg h]

lemma findSessionDoc_update (sessions : List Session) (sessionId targetId : String)
    (f : Session → Session) (hid : ∀ s, (f s).id = s.id) :
    findSessionDoc (updateSessionDoc sessions sessionId f) targetId =
      (findSessionDoc sessions targetId).map
        (fun s => if s.id == sessionId then f s else s) := by
  unfold findSessionDoc updateSessionDoc
  refine find?_map_invariant _ _ (fun s => ?_) sessions
  by_cases h : (s.id == sessionId) = true <;> simp [h, hid]

lemma findUserDoc_set (users : List UserProfile) (userId : String)
    (u newDoc : UserProfile) (hu : findUserDoc users userId = some u)
    (hnew : newDoc.id = u.id) :
    findUserDoc (setUserDoc users userId newDoc) userId = some newDoc := by
  have hu2 : users.find? (fun x => x.id == userId) = some u := hu
  have hpu : (u.id == userId) = true := by simpa using List.find?_some hu2
  have hinv : ∀ x : UserProfile,
      ((if x.id == userId then newDoc else x).id == userId) = (x.id == userId) := by
    intro x
    by_cases h : (x.id == userId) = true
    · rw [if_pos h, hnew, hpu, h]
    · rw [if_neg h]
  unfold findUserDoc setUserDoc
  rw [find?_map_invariant _ _ hinv users]
  have hu' : users.find? (fun x => x.id == userId) = some u := hu
  rw [hu']
  simp only [Option.map_some']
  rw [if_pos hpu]

lemma updateUserStats_eq (userId : String) (sessionData : Session)
    (st : FirestoreState) (cur : Session) (u : UserProfile)
    (hs : findSessionDoc st.sessions sessionData.id = some cur)
    (hnot : userId ∉ cur.statsUpdatedFor)
    (hu : findUserDoc st.users userId = some u) :
    updateUserStats userId sessionData st =
      { sessions := updateSessionDoc st.sessions sessionData.id
          (fun s => { s with statsUpdatedFor := arrayUnion s.statsUpdatedFor userId }),
        users := setUserDoc st.users userId
          (if sessionData.outcome = some .successful then
            { u with
                totalHours := u.totalHours + (sessionData.duration : ℚ) / 60,
                violations := u.violations +
                  getUserTotalViolationTime sessionData.violations userId,
                sessionsCompleted := u.sessionsCompleted + 1 }
           else
            { u with
                violations := u.violations +
                  getUserTotalViolationTime sessionData.violations userId }) } := by
  unfold updateUserStats
  simp only [hs, hu]
  rw [if_neg hnot]

lemma updateUserStats_users_successful (userId : String) (sessionData : Session)
    (st : FirestoreState) (cur : Session) (u : UserProfile)
    (hs : findSessionDoc st.sessions sessionData.id = some cur)
    (hnot : userId ∉ cur.statsUpdatedFor)
    (hu : findUserDoc st.users userId = some u)
    (hout : sessionData.outcome = some .successful) :
    findUserDoc (updateUserStats userId sessionData st).users userId =
      some { u with
        totalHours := u.totalHours + (sessionData.duration : ℚ) / 60,
        violations := u.violations +
          getUserTotalViolationTime sessionData.violations userId,
        sessionsCompleted := u.sessionsCompleted + 1 } := by
  rw [updateUserStats_eq userId sessionData st cur u hs hnot hu]
  simp only [if_pos hout]
  exact findUserDoc_set st.users userId u _ hu rfl

lemma updateUserStats_users_failed (userId : String) (sessionData : Session)
    (st : FirestoreState) (cur : Session) (u : UserProfile)
    (hs : findSessionDoc st.sessions sessionData.id = some cur)
    (hnot : userId ∉ cur.statsUpdatedFor)
    (hu : findUserDoc st.users userId = some u)
    (hout : sessionData.outcome ≠ some .successful) :
    findUserDoc (updateUserStats userId sessionData st).users userId =
      some { u with
        violations := u.violations +
          getUserTotalViolationTime sessionData.violations userId } := by
  rw [updateUserStats_eq userId sessionData st cur u hs hnot hu]
  simp only [if_neg hout]
  exact findUserDoc_set st.users userId u _ hu rfl

lemma updateUserStats_marks_session (userId : String) (sessionData : Session)
    (st : FirestoreState) (cur : Session) (u : UserProfile)
    (hs : findSessionDoc st.sessions sessionData.id = some cur)
    (hnot : userId ∉ cur.statsUpdatedFor)
    (hu : findUserDoc st.users userId = some u) :
    findSessionDoc (updateUserStats userId sessionData st).sessions sessionData.id =
      some { cur with statsUpdatedFor := cur.statsUpdatedFor ++ [userId] } := by
  have hs2 : st.sessions.find? (fun x => x.id == sessionData.id) = some cur := hs
  have hcid : (cur.id == sessionData.id) = true := by simpa using List.find?_some hs2
  rw [updateUserStats_eq userId sessionData st cur u hs hnot hu]
  simp only
  rw [findSessionDoc_update st.sessions sessionData.id sessionData.id
      (fun s => { s with statsUpdatedFor := arrayUnion s.statsUpdatedFor userId })
      (fun s => rfl),
    hs]
  have hcid' : cur.id = sessionData.id := by simpa using hcid
  simp [hcid', arrayUnion_not_mem cur.statsUpdatedFor userId hnot]

/-- C8: for an ended session and a user not yet in `statsUpdatedFor`,
reconciliation on a successful outcome adds `duration / 60` to `totalHours`,
the user's total violation seconds to `violations` and one to
`sessionsCompleted`; on a failed outcome it adds only the violation seconds;
and in both cases it then records the user in the session's
`statsUpdatedFor`. -/
theorem updateUserStats_spec (userId : String) (sessionData : Session)
    (st : FirestoreState) (cur : Session) (u : UserProfile)
    (hs : findSessionDoc st.sessions sessionData.id = some cur)
    (hnot : userId ∉ cur.statsUpdatedFor)
    (hu : findUserDoc st.users userId = some u) :
    (sessionData.outcome = some .successful →
      findUserDoc (updateUserStats userId sessionData st).users userId =
        some { u with
          totalHours := u.totalHours + (sessionData.duration : ℚ) / 60,
          violations := u.violations +
            getUserTotalViolationTime sessionData.violations userId,
          sessionsCompleted := u.sessionsCompleted + 1 }) ∧
    (sessionData.outcome = some .failed →
      findUserDoc (updateUserStats userId sessionData st).users userId =
        some { u with
          violations := u.violations +
            getUserTotalViolationTime sessionData.violations userId }) ∧
    findSessionDoc (updateUserStats userId sessionData st).sessions sessionData.id =
      some { cur with statsUpdatedFor := cur.statsUpdatedFor ++ [userId] } := by
  refine ⟨?_, ?_, updateUserStats_marks_session userId sessionData st cur u hs hnot hu⟩
  · intro hout
    exact updateUserStats_users_successful userId sessionData st cur u hs hnot hu hout
  · intro hout
    refine updateUserStats_users_failed userId sessionData st cur u hs hnot hu ?_
    rw [hout]
    intro hcontra
    exact absurd (Option.some.inj hcontra) (by decide)

/-- Witness for C8: reconciling the finished 30-minute successful session for
"u1" adds half an hour, 10 violation seconds and one completed session. -/
theorem updateUserStats_spec_witness :
    findUserDoc (updateUserStats "u1" finishedSessionEx statsStoreEx).users "u1" =
      some { userProfileEx with
        totalHours := userProfileEx.totalHours + (finishedSessionEx.duration : ℚ) / 60,
        violations := userProfileEx.violations +
          getUserTotalViolationTime finishedSessionEx.violations "u1",
        sessionsCompleted := userProfileEx.sessionsCompleted + 1 } :=
  (updateUserStats_spec "u1" finishedSessionEx statsStoreEx finishedSessionEx
      userProfileEx rfl (by decide) rfl).1 rfl

/-- C9: reconciliation is idempotent per (session, user) pair: it is a no-op
when the user is already in the stored session's `statsUpdatedFor`, and
running it twice with the same session yields exactly the same store as
running it once. -/
theorem updateUserStats_idempotent (userId : String) (sessionData : Session)
    (st : FirestoreState) :
    (∀ cur, findSessionDoc st.sessions sessionData.id = some cur →
        userId ∈ cur.statsUpdatedFor →
        updateUserStats userId sessionData st = st) ∧
    updateUserStats userId sessionData (updateUserStats userId sessionData st) =
      updateUserStats userId sessionData st := by
  have noop : ∀ (st2 : FirestoreState) (cur : Session),
      findSessionDoc st2.sessions sessionData.id = some cur →
      userId ∈ cur.statsUpdatedFor →
      updateUserStats userId sessionData st2 = st2 := by
    intro st2 cur hcur hmem
    unfold updateUserStats
    simp only [hcur]
    rw [if_pos hmem]
  refine ⟨noop st, ?_⟩
  cases hfind : findSessionDoc st.sessions sessionData.id with
  | none =>
    have h1 : updateUserStats userId sessionData st = st := by
      unfold updateUserStats
      simp only [hfind]
    rw [h1, h1]
  | some cur =>
    by_cases hmem : userId ∈ cur.statsUpdatedFor
    · have h1 := noop st cur hfind hmem
      rw [h1, h1]
    · cases hufind : findUserDoc st.users userId with
      | none =>
        have h1 : updateUserStats userId sessionData st = st := by
          unfold updateUserStats
          simp only [hfind, hufind]
          rw [if_neg hmem]
        rw [h1, h1]
      | some u =>
        have hsess : findSessionDoc
            (updateUserStats userId sessionData st).sessions sessionData.id =
            some { cur with
              statsUpdatedFor := cur.statsUpdatedFor ++ [userId] } :=
          updateUserStats_marks_session userId sessionData st cur u hfind hmem hufind
        refine noop (updateUserStats userId sessionData st) _ hsess ?_
        simp

/-- Witness for C9: reconciling an already-reconciled session is a no-op. -/
theorem updateUserStats_idempotent_witness :
    updateUserStats "u1" reconciledSessionEx
        { sessions := [reconciledSessionEx], users := [userProfileEx] } =
      { sessions := [reconciledSessionEx], users := [userProfileEx] } :=
  (updateUserStats_idempotent "u1" reconciledSessionEx
      { sessions := [reconciledSessionEx], users := [userProfileEx] }).1
    reconciledSessionEx rfl (by decide)

/-- C10: a marathon session is created with stored duration 0; ending it
voluntarily yields outcome `successful`; hence reconciling a successful
session of duration 0 leaves `totalHours` unchanged while still adding the
user's violation seconds and one completed session — marathon sessions can
never add study hours to a profile. -/
theorem marathon_sessions_add_no_hours
    (hostId : String) (participantIds : List String) (duration : Nat)
    (roomCode id : String) (createdAt : Nat) (timer : Nat)
    (violations : List Violation) (participants : List String)
    (userId : String) (s : Session) (st : FirestoreState)
    (cur : Session) (u : UserProfile)
    (hdur : s.duration = 0) (hout : s.outcome = some .successful)
    (hs : findSessionDoc st.sessions s.id = some cur)
    (hnot : userId ∉ cur.statsUpdatedFor)
    (hu : findUserDoc st.users userId = some u) :
    (createSessionDoc hostId participantIds duration true roomCode id
      createdAt).duration = 0 ∧
    handleEndSessionOutcome true s.duration timer violations participants
      = (.successful, none) ∧
    findUserDoc (updateUserStats userId s st).users userId =
      some { u with
        totalHours := u.totalHours,
        violations := u.violations + getUserTotalViolationTime s.violations userId,
        sessionsCompleted := u.sessionsCompleted + 1 } := by
  refine ⟨rfl, rfl, ?_⟩
  rw [updateUserStats_users_successful userId s st cur u hs hnot hu hout]
  simp [hdur]

/-- Witness for C10: reconciling the ended successful marathon session for
"u1" leaves `totalHours` unchanged. -/
theorem marathon_sessions_add_no_hours_witness :
    findUserDoc (updateUserStats "u1" marathonSessionEx
        { sessions := [marathonSessionEx], users := [userProfileEx] }).users "u1" =
      some { userProfileEx with
        totalHours := userProfileEx.totalHours,
        violations := userProfileEx.violations +
          getUserTotalViolationTime marathonSessionEx.violations "u1",
        sessionsCompleted := userProfileEx.sessionsCompleted + 1 } :=
  (marathon_sessions_add_no_hours "h" [] 25 "333333" "s8" 0 0 [] [] "u1"
      marathonSessionEx
      { sessions := [marathonSessionEx], users := [userProfileEx] }
      marathonSessionEx userProfileEx rfl rfl rfl (by decide) rfl).2.2

end StudyApp
